import Mathlib

set_option autoImplicit false

/-!
# Verification of the a2sapi steam server-list retrieval pipeline

Shallow embedding of the `steam` package's server-list pipeline
(`src/unnamed/part_000`: `getPlayersForServers`, `getRulesForServers`,
`getInfoForServers`, `buildServerList`, `setServerIDForList`, `retrieve`),
the `models` package's `GetDefaultServerList`
(`src/src/models/api_serverlist.go`), and — modelled from the spec, since
`steaminfo.go` itself is not in the source tree — the A2S_INFO wire decoder
exercised by `TestParseServerInfo` (`src/src/steam/steaminfo_test.go`).

Concurrency note: the Go fan-out functions launch one goroutine per host and
accumulate results in a map/slice under a single mutex.  Per host the outcome
is a pure function of that host's query result, so the fan-out is embedded as
a sequential fold over the host list; map/set contents are identical to any
interleaving.  Database and network collaborators are passed in as explicit
oracles (pure functions), matching the spec's "external collaborators"
boundary.
-/

namespace A2S

/-- A Go slice value: `none` models a `nil` slice, `some l` a non-nil slice
holding `l`.  A nil slice ranges as empty but serializes as JSON `null`. -/
abbrev GoSlice (α : Type) : Type := Option (List α)

/-- A Go `map[string]string` value: `none` models a nil map. -/
abbrev RulesMap : Type := Option (List (String × String))

/-- Errors of the steam query layer (`ErrNoInfo`, `ErrNoPlayers`,
`ErrNoRules` are the sentinel errors compared against in the fan-out;
`other` stands for every other error value). -/
inductive SteamErr where
  | ErrNoInfo
  | ErrNoPlayers
  | ErrNoRules
  | other (msg : String)
deriving DecidableEq

/-- `PlayerInfo` as used by the pipeline (fields read in `singleServerTest`). -/
structure PlayerInfo where
  Name : String
  Score : Int
  TimeConnectedTot : String
deriving DecidableEq

/-- The optional extended block of `ServerInfo`.  In Go absent fields keep
their zero value; `Port = 0` therefore means "no game port exposed". -/
structure ExtraData where
  Port : Nat
  SteamID : Nat
  SourceTVPort : Nat
  SourceTVName : String
  Keywords : String
  GameID : Nat
deriving DecidableEq

/-- `ServerInfo`: the decoded A2S_INFO record (spec §3, fields as read in
`singleServerTest` and asserted in `TestParseServerInfo`). -/
structure ServerInfo where
  Protocol : Nat
  Name : String
  Map : String
  Folder : String
  Game : String
  ID : Nat
  Players : Nat
  MaxPlayers : Nat
  Bots : Nat
  ServerType : String
  Environment : String
  Visibility : Nat
  VAC : Nat
  Version : String
  ExtraData : ExtraData
deriving DecidableEq

/-- Country attachment returned by the geo collaborator (`db.Country`);
its exact fields are owned by the out-of-scope db package. -/
structure DbCountry where
  CountryName : String
deriving DecidableEq

/-- `filters.Filter` as consumed by this package: the three ignore flags. -/
structure Filter where
  HasIgnoreInfo : Bool
  HasIgnorePlayers : Bool
  HasIgnoreRules : Bool
deriving DecidableEq

/-- The `interface{}`-typed `Info` field of `server`: either the empty-map
placeholder `make(map[string]int, 0)` (serialized `{}`), a non-nil
`*ServerInfo`, or a nil `*ServerInfo` inside the interface (serialized
`null`). -/
inductive InfoField where
  | emptyObj
  | si (v : ServerInfo)
  | nilPtr
deriving DecidableEq

/-- The `server` struct of `part_000` (lines 28-39), JSON tags:
serverId, address, ip, port, location, info, players, rules. -/
structure server where
  ID : Int
  Host : String
  IP : String
  Port : Int
  CountryInfo : Option DbCountry
  Info : InfoField
  Players : GoSlice PlayerInfo
  Rules : RulesMap
deriving DecidableEq

/-- The `serverList` struct of `part_000` (lines 20-27), JSON tags:
retrievalDate, timestamp, serverCount, servers, failedCount, failedServers. -/
structure serverList where
  RetrievedAt : String
  RetrievedTimeStamp : Int
  ServerCount : Int
  Servers : List server
  FailedCount : Int
  FailedServers : List String
deriving DecidableEq

/-! ## Models of the Go standard library pieces the pipeline uses -/

/-- Split a character list at the LAST occurrence of `c`:
`splitLast c cs = some (a, b)` iff `cs = a ++ c :: b` with `c ∉ b`. -/
def splitLast (c : Char) : List Char → Option (List Char × List Char)
  | [] => none
  | x :: xs =>
    match splitLast c xs with
    | some (a, b) => some (x :: a, b)
    | none => if x = c then some ([], xs) else none

/-- Model of Go `net.SplitHostPort` for bracket-free addresses: split at the
last colon; fail when there is no colon, a second colon in the host part, or
a bracket (the bracketed IPv6 form is not exercised by this pipeline's
`ip:port` host keys). -/
def splitHostPort (s : String) : Option (String × String) :=
  match splitLast ':' s.data with
  | none => none
  | some (hostcs, portcs) =>
    if hostcs.contains ':' || hostcs.contains '[' || hostcs.contains ']' then none
    else some (String.mk hostcs, String.mk portcs)

/-- Model of Go `strconv.Atoi` on the non-negative decimal strings produced
by `net.SplitHostPort` on this pipeline's hosts (sign handling unused). -/
def atoi (s : String) : Option Int :=
  if s.data ≠ [] ∧ s.data.all Char.isDigit then
    some (Int.ofNat (s.data.foldl (fun acc c => acc * 10 + (c.toNat - 48)) 0))
  else none

/-! ## Batch fan-out / fan-in (part_000 lines 116-212)

`getPlayersForServers` and `getRulesForServers` share one loop shape: query
each host; an error other than the kind's no-data sentinel appends the host
to `failed` (the retry set) and skips the store; otherwise the returned
value — for the no-data sentinel, the nil value Go returns alongside it — is
stored in the success map `m`.  The per-host query result is the oracle
`q host = (value, error)`. -/

/-- The shared fan-out accumulation loop.  `benign` is the kind's no-data
sentinel (`ErrNoPlayers` for players, `ErrNoRules` for rules).  Returns
(success map, retry set). -/
def fanoutNoData {α : Type} (benign : SteamErr) (q : String → α × Option SteamErr) :
    List String → List (String × α) × List String
  | [] => ([], [])
  | h :: t =>
    let rest := fanoutNoData benign q t
    match q h with
    | (v, none) => ((h, v) :: rest.1, rest.2)
    | (v, some e) =>
      if e = benign then ((h, v) :: rest.1, rest.2) else (rest.1, h :: rest.2)

/-- Fan-out phase of `getPlayersForServers` (part_000 lines 147-173). -/
def getPlayersForServersFanout (q : String → GoSlice PlayerInfo × Option SteamErr)
    (serverlist : List String) : List (String × GoSlice PlayerInfo) × List String :=
  fanoutNoData SteamErr.ErrNoPlayers q serverlist

/-- Fan-out phase of `getRulesForServers` (part_000 lines 181-206). -/
def getRulesForServersFanout (q : String → RulesMap × Option SteamErr)
    (serverlist : List String) : List (String × RulesMap) × List String :=
  fanoutNoData SteamErr.ErrNoRules q serverlist

/-- Fan-out phase of `getInfoForServers` (part_000 lines 116-139): any error
fails the host; only successes are stored. -/
def getInfoForServersFanout (q : String → Except SteamErr ServerInfo) :
    List String → List (String × ServerInfo) × List String
  | [] => ([], [])
  | h :: t =>
    let rest := getInfoForServersFanout q t
    match q h with
    | Except.ok v => ((h, v) :: rest.1, rest.2)
    | Except.error _ => (rest.1, h :: rest.2)

/-- Go map store `m[k] = v` on an association list. -/
def mapSet {α : Type} (m : List (String × α)) (k : String) (v : α) :
    List (String × α) :=
  (k, v) :: m.filter (fun p => p.1 != k)

/-- `getPlayersForServers` (part_000 lines 147-179): fan-out, then merge the
retry rounds' successes (`RetryFailedPlayersReq`, code outside src, passed as
the oracle `retry`) into the map. -/
def getPlayersForServers (q : String → GoSlice PlayerInfo × Option SteamErr)
    (retry : List String → List (String × GoSlice PlayerInfo))
    (serverlist : List String) : List (String × GoSlice PlayerInfo) :=
  let r := getPlayersForServersFanout q serverlist
  (retry r.2).foldl (fun m kv => mapSet m kv.1 kv.2) r.1

/-- `getRulesForServers` (part_000 lines 181-212), retry oracle as above. -/
def getRulesForServers (q : String → RulesMap × Option SteamErr)
    (retry : List String → List (String × RulesMap))
    (serverlist : List String) : List (String × RulesMap) :=
  let r := getRulesForServersFanout q serverlist
  (retry r.2).foldl (fun m kv => mapSet m kv.1 kv.2) r.1

/-- `getInfoForServers` (part_000 lines 116-145), retry oracle as above. -/
def getInfoForServers (q : String → Except SteamErr ServerInfo)
    (retry : List String → List (String × ServerInfo))
    (serverlist : List String) : List (String × ServerInfo) :=
  let r := getInfoForServersFanout q serverlist
  (retry r.2).foldl (fun m kv => mapSet m kv.1 kv.2) r.1

/-- Spec-side classifier for one host's fan-out outcome (spec §4.4): first
component is the value recorded in the success map (or `none` when the host
is not recorded), second is whether the host enters the retry set. -/
def fanoutClassify {α : Type} (benign : SteamErr) : α × Option SteamErr → Option α × Bool
  | (v, none) => (some v, false)
  | (v, some e) => if e = benign then (some v, false) else (none, true)

/-! ## Server list assembler (part_000 lines 214-341)

`buildServerList` processes each host of the input list independently; the
per-host work is `processHost` below:

* lines 242-250: look up the three per-kind maps, replacing a nil players
  slice with an empty one;
* lines 251-274: the success truth table (`computeSuccess`);
* lines 276-312: build the `server` entry for a successful host
  (`mkEntry`) or append the host to `FailedServers`.

The country/id database collaborators are the oracles `countryOf`/`idOf`;
`cdbOk`/`sdbOk` model whether `db.OpenCountryDB`/`db.OpenServerDB` succeed;
`now`/`ts` stand for `time.Now()`.  Note that line 291 reads
`info.ExtraData.Port` without a nil check, so a successful host whose
address splits but which has no entry in `infomap` dereferences a nil
pointer: this is the `panicked` outcome. -/

/-- Per-host outcome inside `buildServerList`'s loop: appended to the failed
list, appended to `Servers` (together with any host string appended to
`dbhosts`), or a nil-pointer panic at line 291. -/
inductive HostStep where
  | failedHost
  | okEntry (srv : server) (dbAdd : List String)
  | panicked
deriving DecidableEq

/-- The success truth table, a direct transcription of part_000 lines
251-274 (sequential `if` statements; the last assignment wins). -/
def computeSuccess (filter : Filter) (iok pok rok : Bool) : Bool :=
  let s := iok && rok && pok
  let s := if filter.HasIgnoreInfo then pok && rok else s
  let s := if filter.HasIgnorePlayers then iok && rok else s
  let s := if filter.HasIgnoreRules then iok && pok else s
  let s := if filter.HasIgnoreInfo && filter.HasIgnorePlayers then rok else s
  let s := if filter.HasIgnoreInfo && filter.HasIgnoreRules then pok else s
  let s := if filter.HasIgnorePlayers && filter.HasIgnoreRules then iok else s
  s

/-- The `Info` field stored on a successful entry (lines 254-258, 281-286):
the empty-map placeholder under `HasIgnoreInfo` (`useEmptyInfo`), otherwise
the looked-up `*ServerInfo` (a nil pointer when absent). -/
def infoFieldFor (useEmptyInfo : Bool) (info : Option ServerInfo) : InfoField :=
  if useEmptyInfo then InfoField.emptyObj
  else
    match info with
    | some v => InfoField.si v
    | none => InfoField.nilPtr

/-- Entry construction for a successful host (part_000 lines 276-308).
When `net.SplitHostPort` fails the enrichment block is skipped entirely and
the entry keeps zero values for `Host`/`IP`/`Port`/`CountryInfo`.  When it
succeeds, line 291 dereferences `info` with no nil check — `panicked` when
the host has no info entry. -/
def mkEntry (filter : Filter) (info : Option ServerInfo) (players : GoSlice PlayerInfo)
    (rules : RulesMap) (countryOf : String → Option DbCountry) (host : String) :
    HostStep :=
  match splitHostPort host with
  | none =>
    HostStep.okEntry
      { ID := 0, Host := "", IP := "", Port := 0, CountryInfo := none,
        Info := infoFieldFor filter.HasIgnoreInfo info,
        Players := players, Rules := rules } []
  | some (ip, portStr) =>
    match info with
    | none => HostStep.panicked
    | some v =>
      HostStep.okEntry
        { ID := 0,
          Host := if v.ExtraData.Port ≠ 0 then ip ++ ":" ++ toString v.ExtraData.Port
                  else host,
          IP := ip,
          Port := (atoi portStr).getD 0,
          CountryInfo := countryOf ip,
          Info := infoFieldFor filter.HasIgnoreInfo info,
          Players := players, Rules := rules }
        (if v.ExtraData.Port ≠ 0 then [ip ++ ":" ++ toString v.ExtraData.Port] else [])

/-- One iteration of `buildServerList`'s host loop (part_000 lines 241-313). -/
def processHost (filter : Filter) (infomap : List (String × ServerInfo))
    (rulemap : List (String × RulesMap))
    (playermap : List (String × GoSlice PlayerInfo))
    (countryOf : String → Option DbCountry) (host : String) : HostStep :=
  if computeSuccess filter (infomap.lookup host).isSome
      (playermap.lookup host).isSome (rulemap.lookup host).isSome then
    mkEntry filter (infomap.lookup host)
      (some (((playermap.lookup host).getD none).getD []))
      (if filter.HasIgnoreRules then some [] else (rulemap.lookup host).getD none)
      countryOf host
  else HostStep.failedHost

/-- The host loop, accumulating `Servers`, `FailedServers` and `dbhosts` in
input order; `none` when some host panics. -/
def buildLoop (ph : String → HostStep) :
    List String → Option (List server × List String × List String)
  | [] => some ([], [], [])
  | h :: t =>
    match ph h with
    | HostStep.panicked => none
    | HostStep.failedHost =>
      match buildLoop ph t with
      | none => none
      | some (srvs, failed, dbs) => some (srvs, h :: failed, dbs)
    | HostStep.okEntry srv dbAdd =>
      match buildLoop ph t with
      | none => none
      | some (srvs, failed, dbs) => some (srv :: srvs, failed, dbAdd ++ dbs)

/-- ID enrichment applied by `setServerIDForList` to one entry (part_000
lines 335-339): the id map lookup, zero meaning "absent" in Go. -/
def applyID (idOf : String → Int) (s : server) : server :=
  if idOf s.Host ≠ 0 then { s with ID := idOf s.Host } else s

/-- `setServerIDForList` (part_000 lines 326-341): fetch ids for all entry
hosts from the server db (oracle `idOf`) and set each nonzero one. -/
def setServerIDForList (idOf : String → Int) (sl : serverList) : serverList :=
  { sl with Servers := sl.Servers.map (applyID idOf) }

/-- Result of `buildServerList`: the assembled list, the all-three-flags
configuration error (line 218), a database-open error (lines 230-238), or a
runtime panic inside the loop. -/
inductive BuildResult where
  | ok (sl : serverList)
  | configError
  | dbError
  | panicked
deriving DecidableEq

/-- `buildServerList` (part_000 lines 214-324). -/
def buildServerList (filter : Filter) (servers : List String)
    (infomap : List (String × ServerInfo)) (rulemap : List (String × RulesMap))
    (playermap : List (String × GoSlice PlayerInfo))
    (countryOf : String → Option DbCountry) (idOf : String → Int)
    (cdbOk sdbOk : Bool) (now : String) (ts : Int) : BuildResult :=
  if filter.HasIgnoreInfo && filter.HasIgnorePlayers && filter.HasIgnoreRules then
    BuildResult.configError
  else if !cdbOk then BuildResult.dbError
  else if !sdbOk then BuildResult.dbError
  else
    match buildLoop (processHost filter infomap rulemap playermap countryOf) servers with
    | none => BuildResult.panicked
    | some (srvs, failed, _dbhosts) =>
      BuildResult.ok (setServerIDForList idOf
        { RetrievedAt := now, RetrievedTimeStamp := ts,
          ServerCount := Int.ofNat srvs.length, Servers := srvs,
          FailedCount := Int.ofNat failed.length, FailedServers := failed })

/-! ## `models.GetDefaultServerList` (src/src/models/api_serverlist.go) -/

/-- The `models.APIServer` struct.  `RealPlayers` points to a
`RealPlayerInfo` whose definition lies outside src; no `APIServer` is ever
constructed here, so its payload is irrelevant and modelled as `Unit`. -/
structure APIServer where
  ID : Int
  Host : String
  Game : String
  IP : String
  Port : Int
  CountryInfo : Option DbCountry
  Info : InfoField
  Players : GoSlice PlayerInfo
  RealPlayers : Option Unit
  Rules : RulesMap

/-- The `models.APIServerList` struct (api_serverlist.go lines 10-17). -/
structure APIServerList where
  RetrievedAt : String
  RetrievedTimeStamp : Int
  ServerCount : Int
  Servers : List APIServer
  FailedCount : Int
  FailedServers : List String

/-- `models.GetDefaultServerList` (api_serverlist.go lines 39-48);
`now`/`ts` stand for `time.Now()`. -/
def GetDefaultServerList (now : String) (ts : Int) : APIServerList :=
  { RetrievedAt := now, RetrievedTimeStamp := ts, ServerCount := 0,
    Servers := [], FailedCount := 0, FailedServers := [] }

/-! ## `retrieve` (part_000 lines 343-394)

`retrieve` first runs `NewMasterQuery` — a network exchange with the master
server, modelled by the oracle `master` — and only then checks the
all-three-ignore-flags condition (lines 344-351).  The network effects the
run emits, in order, are collected in the returned trace: the master query
first, then one host query per host per non-skipped kind (the retry rounds'
further host queries live behind the `retry` oracles and are not itemized).
The final JSON-snapshot file write is filesystem, not network, and is
outside this model. -/

/-- The three A2S request kinds. -/
inductive A2SKind where
  | infoK
  | playersK
  | rulesK
deriving DecidableEq

/-- A network exchange performed by `retrieve`: the master-server discovery
query, or one A2S query against one game-server host. -/
inductive NetEffect where
  | masterQuery
  | hostQuery (kind : A2SKind) (host : String)
deriving DecidableEq

/-- Error outcomes of `retrieve`. -/
inductive RetrieveErr where
  | masterErr
  | configErr
  | buildDbErr
  | panicked
deriving DecidableEq

/-- `retrieve` (part_000 lines 343-394): master query, all-three-flags
check, per-kind fan-outs for the non-skipped kinds (a skipped kind's map
stays nil, so every lookup in it misses), assembly.  Returns the emitted
network effects in order together with the result. -/
def retrieve (filter : Filter) (master : Except SteamErr (List String))
    (qI : String → Except SteamErr ServerInfo)
    (qP : String → GoSlice PlayerInfo × Option SteamErr)
    (qR : String → RulesMap × Option SteamErr)
    (retryI : List String → List (String × ServerInfo))
    (retryP : List String → List (String × GoSlice PlayerInfo))
    (retryR : List String → List (String × RulesMap))
    (countryOf : String → Option DbCountry) (idOf : String → Int)
    (cdbOk sdbOk : Bool) (now : String) (ts : Int) :
    List NetEffect × Except RetrieveErr serverList :=
  match master with
  | Except.error _ => ([NetEffect.masterQuery], Except.error RetrieveErr.masterErr)
  | Except.ok hosts =>
    if filter.HasIgnoreInfo && filter.HasIgnorePlayers && filter.HasIgnoreRules then
      ([NetEffect.masterQuery], Except.error RetrieveErr.configErr)
    else
      let pEff := if !filter.HasIgnorePlayers then
          hosts.map (NetEffect.hostQuery A2SKind.playersK) else []
      let rEff := if !filter.HasIgnoreRules then
          hosts.map (NetEffect.hostQuery A2SKind.rulesK) else []
      let iEff := if !filter.HasIgnoreInfo then
          hosts.map (NetEffect.hostQuery A2SKind.infoK) else []
      let playermap := if !filter.HasIgnorePlayers then
          getPlayersForServers qP retryP hosts else []
      let rulemap := if !filter.HasIgnoreRules then
          getRulesForServers qR retryR hosts else []
      let infomap := if !filter.HasIgnoreInfo then
          getInfoForServers qI retryI hosts else []
      let trace := NetEffect.masterQuery :: (pEff ++ rEff ++ iEff)
      match buildServerList filter hosts infomap rulemap playermap countryOf idOf
          cdbOk sdbOk now ts with
      | BuildResult.ok sl => (trace, Except.ok sl)
      | BuildResult.configError => (trace, Except.error RetrieveErr.configErr)
      | BuildResult.dbError => (trace, Except.error RetrieveErr.buildDbErr)
      | BuildResult.panicked => (trace, Except.error RetrieveErr.panicked)

/-! ## A2S_INFO wire decoding

`parseServerInfo` lives in `steaminfo.go`, which is not under src (only its
test `TestParseServerInfo` is); per the spec it is modelled from spec §4.1:
"after marker and type byte, fields parse in fixed protocol order (version,
name, map, folder, game, app id, players, max players, bots,
dedicated/listen indicator, OS indicator, password flag, anti-cheat flag,
version); a trailing flag byte, if present, is a bitmask selecting which of
{port, platform id, spectator port, spectator name, keywords, 64-bit game
id} extra fields follow — each read only when its bit is set". -/

/-- Read a null-terminated byte string. -/
def readCString : List Nat → Option (String × List Nat)
  | [] => none
  | b :: rest =>
    if b = 0 then some ("", rest)
    else
      match readCString rest with
      | none => none
      | some (s, r) => some (String.mk (Char.ofNat b :: s.data), r)

/-- Read a little-endian 16-bit unsigned integer. -/
def readUInt16LE : List Nat → Option (Nat × List Nat)
  | a :: b :: rest => some (a + 256 * b, rest)
  | _ => none

/-- Read a little-endian 64-bit unsigned integer. -/
def readUInt64LE : List Nat → Option (Nat × List Nat)
  | a :: b :: c :: d :: e :: f :: g :: h :: rest =>
    some (a + 256 * (b + 256 * (c + 256 * (d + 256 *
      (e + 256 * (f + 256 * (g + 256 * h)))))), rest)
  | _ => none

/-- Modelled from the spec: the OS-indicator byte rendered as the
environment string asserted by `TestParseServerInfo` (`0x6C` = `l` is
"Linux"). -/
def environmentString (b : Nat) : String :=
  if b = 108 then "Linux"
  else if b = 119 then "Windows"
  else if b = 109 ∨ b = 111 then "Mac"
  else "Unknown"

/-- Modelled from the spec: the dedicated/listen indicator byte rendered as
a string (`0x64` = `d` dedicated, `0x6C` = `l` listen, `0x70` = `p`
SourceTV). -/
def serverTypeString (b : Nat) : String :=
  if b = 100 then "Dedicated"
  else if b = 108 then "Listen"
  else if b = 112 then "SourceTV"
  else "Unknown"

/-- The zero `ExtraData`: every extra field absent. -/
def zeroExtraData : ExtraData :=
  { Port := 0, SteamID := 0, SourceTVPort := 0, SourceTVName := "",
    Keywords := "", GameID := 0 }

/-- Modelled from the spec: decoding of the trailing extra-data block of an
A2S_INFO reply (spec §4.1).  The flag byte, when present, is a bitmask:
`0x80` game port (u16), `0x10` platform/steam id (u64), `0x40` spectator
port (u16) and name (string), `0x20` keywords (string), `0x01` 64-bit game
id; each field is read only when its bit is set.  Trailing padding bytes
are ignored. -/
def parseExtraData (data : List Nat) : Option ExtraData :=
  match data with
  | [] => some zeroExtraData
  | edf :: rest =>
    (if edf.land 128 ≠ 0 then readUInt16LE rest else some (0, rest)).bind fun pr =>
    (if edf.land 16 ≠ 0 then readUInt64LE pr.2 else some (0, pr.2)).bind fun sid =>
    (if edf.land 64 ≠ 0 then
        (readUInt16LE sid.2).bind fun tv =>
          (readCString tv.2).map fun tn => ((tv.1, tn.1), tn.2)
      else some ((0, ""), sid.2)).bind fun tvr =>
    (if edf.land 32 ≠ 0 then readCString tvr.2 else some ("", tvr.2)).bind fun kw =>
    (if edf.land 1 ≠ 0 then readUInt64LE kw.2 else some (0, kw.2)).map fun gid =>
    { Port := pr.1, SteamID := sid.1, SourceTVPort := tvr.1.1,
      SourceTVName := tvr.1.2, Keywords := kw.1, GameID := gid.1 }

/-- Modelled from the spec: `parseServerInfo` (`steaminfo.go`, absent from
src; exercised by `TestParseServerInfo`).  The payload must open with the
4-byte broadcast marker `FF FF FF FF` and the info type byte `0x49`; the
fixed fields then parse in the spec's order, followed by the optional
extra-data block. -/
def parseServerInfo (data : List Nat) : Option ServerInfo :=
  match data with
  | 255 :: 255 :: 255 :: 255 :: 73 :: protocol :: rest =>
    (readCString rest).bind fun nr =>
    (readCString nr.2).bind fun mr =>
    (readCString mr.2).bind fun fr =>
    (readCString fr.2).bind fun gr =>
    (readUInt16LE gr.2).bind fun idr =>
    match idr.2 with
    | players :: maxPlayers :: bots :: stype :: env :: vis :: vac :: r2 =>
      (readCString r2).bind fun vr =>
      (parseExtraData vr.2).map fun ed =>
      { Protocol := protocol, Name := nr.1, Map := mr.1, Folder := fr.1,
        Game := gr.1, ID := idr.1, Players := players,
        MaxPlayers := maxPlayers, Bots := bots,
        ServerType := serverTypeString stype,
        Environment := environmentString env, Visibility := vis, VAC := vac,
        Version := vr.1, ExtraData := ed }
    | _ => none
  | _ => none

/-- The literal 144-byte fixture packet of `TestParseServerInfo`
(steaminfo_test.go lines 9-22). -/
def infoFixturePacket : List Nat :=
  [0xFF, 0xFF, 0xFF, 0xFF, 0x49, 0x11, 0x71, 0x6C, 0x2E, 0x73, 0x79, 0x6E,
   0x63, 0x6F, 0x72, 0x65, 0x2E, 0x6F, 0x72, 0x67, 0x20, 0x2D, 0x20, 0x55,
   0x53, 0x20, 0x43, 0x45, 0x4E, 0x54, 0x52, 0x41, 0x4C, 0x20, 0x23, 0x31,
   0x00, 0x74, 0x68, 0x75, 0x6E, 0x64, 0x65, 0x72, 0x73, 0x74, 0x72, 0x75,
   0x63, 0x6B, 0x00, 0x62, 0x61, 0x73, 0x65, 0x71, 0x33, 0x00, 0x43, 0x6C,
   0x61, 0x6E, 0x20, 0x41, 0x72, 0x65, 0x6E, 0x61, 0x00, 0x00, 0x00, 0x02,
   0x10, 0x00, 0x64, 0x6C, 0x00, 0x01, 0x31, 0x30, 0x36, 0x33, 0x00, 0xB1,
   0x38, 0x6D, 0x02, 0xF8, 0xC1, 0x4D, 0x7B, 0x17, 0x40, 0x01, 0x63, 0x6C,
   0x61, 0x6E, 0x61, 0x72, 0x65, 0x6E, 0x61, 0x2C, 0x73, 0x79, 0x6E, 0x63,
   0x6F, 0x72, 0x65, 0x2C, 0x74, 0x65, 0x78, 0x61, 0x73, 0x00, 0x48, 0x4F,
   0x04, 0x00, 0x00, 0x00, 0x00, 0x00, 0x00, 0x00, 0x00, 0x00, 0x00, 0x00,
   0x00, 0x00, 0x00, 0x00, 0x00, 0x00, 0x00, 0x00, 0x00, 0x00, 0x00, 0x00,
   0x00, 0x00, 0x00, 0x00, 0x00, 0x00, 0x00, 0x00, 0x00, 0x00, 0x00, 0x00]

/-! ## JSON snapshot field order

Go's `encoding/json` emits struct fields in declaration order with their
tags.  `marshalServerList` produces the top-level key/value sequence of the
snapshot from the `serverList` struct declaration (part_000 lines 20-27);
`marshalServer` likewise from `server` (lines 28-39).  The JSON tags of
`ServerInfo`, `PlayerInfo` and `db.Country` belong to files outside src, so
their encoders are parameters. -/

/-- A JSON value (field order of objects is significant). -/
inductive Json where
  | null
  | str (s : String)
  | num (n : Int)
  | arr (xs : List Json)
  | obj (fields : List (String × Json))

/-- Marshal a Go slice: nil serializes as `null`, otherwise as an array. -/
def marshalGoSlice {α : Type} (enc : α → Json) : GoSlice α → Json
  | none => Json.null
  | some l => Json.arr (l.map enc)

/-- Marshal a Go `map[string]string`: nil serializes as `null`. -/
def marshalRules : RulesMap → Json
  | none => Json.null
  | some kvs => Json.obj (kvs.map fun kv => (kv.1, Json.str kv.2))

/-- Marshal the `interface{}`-typed `Info` field: the empty-map placeholder
as `{}`, a nil pointer as `null`, a real record via the info encoder. -/
def marshalInfoField (encInfo : ServerInfo → Json) : InfoField → Json
  | InfoField.emptyObj => Json.obj []
  | InfoField.nilPtr => Json.null
  | InfoField.si v => encInfo v

/-- Marshal one `server` entry in its struct's tag order (part_000 lines
28-39). -/
def marshalServer (encInfo : ServerInfo → Json) (encPlayer : PlayerInfo → Json)
    (encCountry : DbCountry → Json) (s : server) : Json :=
  Json.obj
    [("serverId", Json.num s.ID),
     ("address", Json.str s.Host),
     ("ip", Json.str s.IP),
     ("port", Json.num s.Port),
     ("location", match s.CountryInfo with
                  | none => Json.null
                  | some c => encCountry c),
     ("info", marshalInfoField encInfo s.Info),
     ("players", marshalGoSlice encPlayer s.Players),
     ("rules", marshalRules s.Rules)]

/-- Marshal the snapshot's top-level object in the `serverList` struct's tag
order (part_000 lines 20-27). -/
def marshalServerList (encInfo : ServerInfo → Json) (encPlayer : PlayerInfo → Json)
    (encCountry : DbCountry → Json) (sl : serverList) : List (String × Json) :=
  [("retrievalDate", Json.str sl.RetrievedAt),
   ("timestamp", Json.num sl.RetrievedTimeStamp),
   ("serverCount", Json.num sl.ServerCount),
   ("servers", Json.arr (sl.Servers.map (marshalServer encInfo encPlayer encCountry))),
   ("failedCount", Json.num sl.FailedCount),
   ("failedServers", Json.arr (sl.FailedServers.map Json.str))]

/-- The top-level field order the spec's words assert (spec §6: "retrieval
timestamp, counts, server list, failed-host list"): both counts after the
timestamps and before the two lists.  Written from the spec's words for
comparison against `marshalServerList`. -/
def specSnapshotFieldOrder : List String :=
  ["retrievalDate", "timestamp", "serverCount", "failedCount", "servers",
   "failedServers"]

/-- Projection of a `HostStep` to the entry it appends, if any. -/
def stepSrv : HostStep → Option server
  | HostStep.okEntry srv _ => some srv
  | _ => none

/-- Projection of a `HostStep` to the appended entry's `Host` address. -/
def stepHost : HostStep → Option String
  | HostStep.okEntry srv _ => some srv.Host
  | _ => none

/-- Projection of a `HostStep` to the host strings it appends to `dbhosts`
(the identity-enrichment recording). -/
def stepDbAdd : HostStep → List String
  | HostStep.okEntry _ db => db
  | _ => []

/-! ## Lemmas about the fan-out loop -/

/-- A host whose outcome is classified as a failure is never stored in the
success map, at any position of the host list. -/
lemma fanoutNoData_lookup_none {α : Type} (benign : SteamErr)
    (q : String → α × Option SteamErr) (l : List String) (h : String)
    (hc : (fanoutClassify benign (q h)).2 = true) :
    (fanoutNoData benign q l).1.lookup h = none := by
  induction l with
  | nil => rfl
  | cons x t ih =>
    by_cases hx : h = x
    · subst hx
      rcases hq : q h with ⟨v, e⟩
      rw [hq] at hc
      simp only [fanoutNoData, hq]
      cases e with
      | none => simp [fanoutClassify] at hc
      | some e0 =>
        by_cases hb : e0 = benign
        · simp [fanoutClassify, hb] at hc
        · simp only [if_neg hb]
          exact ih
    · rcases hq : q x with ⟨v, e⟩
      simp only [fanoutNoData, hq]
      cases e with
      | none => simpa [List.lookup, beq_eq_false_iff_ne.mpr hx] using ih
      | some e0 =>
        by_cases hb : e0 = benign
        · simp only [if_pos hb]
          simpa [List.lookup, beq_eq_false_iff_ne.mpr hx] using ih
        · simpa [if_neg hb] using ih

/-- A host whose outcome is classified as a success never enters the retry
set, at any position of the host list. -/
lemma fanoutNoData_not_failed {α : Type} (benign : SteamErr)
    (q : String → α × Option SteamErr) (l : List String) (h : String)
    (hc : (fanoutClassify benign (q h)).2 = false) :
    h ∉ (fanoutNoData benign q l).2 := by
  induction l with
  | nil => simp [fanoutNoData]
  | cons x t ih =>
    rcases hq : q x with ⟨v, e⟩
    simp only [fanoutNoData, hq]
    cases e with
    | none => exact ih
    | some e0 =>
      by_cases hb : e0 = benign
      · simp only [if_pos hb]
        exact ih
      · simp only [if_neg hb, List.mem_cons]
        rintro (rfl | hmem)
        · rw [hq] at hc
          simp [fanoutClassify, hb] at hc
        · exact ih hmem

/-- For a host of the batch, the success map records exactly what the
classifier prescribes. -/
lemma fanoutNoData_lookup_eq {α : Type} (benign : SteamErr)
    (q : String → α × Option SteamErr) (l : List String) (h : String)
    (hmem : h ∈ l) :
    (fanoutNoData benign q l).1.lookup h = (fanoutClassify benign (q h)).1 := by
  induction l with
  | nil => simp at hmem
  | cons x t ih =>
    by_cases hx : h = x
    · subst hx
      rcases hq : q h with ⟨v, e⟩
      simp only [fanoutNoData, hq]
      cases e with
      | none => simp [fanoutClassify, hq, List.lookup]
      | some e0 =>
        by_cases hb : e0 = benign
        · simp [fanoutClassify, hq, hb, List.lookup]
        · simp only [if_neg hb]
          rw [fanoutNoData_lookup_none benign q t h (by simp [fanoutClassify, hq, hb])]
          simp [fanoutClassify, hq, hb]
    · have hmem2 : h ∈ t := by
        rcases List.mem_cons.mp hmem with h1 | h1
        · exact absurd h1 hx
        · exact h1
      rcases hq : q x with ⟨v, e⟩
      simp only [fanoutNoData, hq]
      cases e with
      | none => simpa [List.lookup, beq_eq_false_iff_ne.mpr hx] using ih hmem2
      | some e0 =>
        by_cases hb : e0 = benign
        · simp only [if_pos hb]
          simpa [List.lookup, beq_eq_false_iff_ne.mpr hx] using ih hmem2
        · simpa [if_neg hb] using ih hmem2

/-- For a host of the batch, retry-set membership is exactly what the
classifier prescribes. -/
lemma fanoutNoData_failed_iff {α : Type} (benign : SteamErr)
    (q : String → α × Option SteamErr) (l : List String) (h : String)
    (hmem : h ∈ l) :
    h ∈ (fanoutNoData benign q l).2 ↔ (fanoutClassify benign (q h)).2 = true := by
  constructor
  · intro hin
    by_contra hc
    exact fanoutNoData_not_failed benign q l h (Bool.not_eq_true _ ▸ hc) hin
  · intro hc
    induction l with
    | nil => simp at hmem
    | cons x t ih =>
      by_cases hx : h = x
      · subst hx
        rcases hq : q h with ⟨v, e⟩
        rw [hq] at hc
        simp only [fanoutNoData, hq]
        cases e with
        | none => simp [fanoutClassify] at hc
        | some e0 =>
          by_cases hb : e0 = benign
          · simp [fanoutClassify, hb] at hc
          · simp [if_neg hb]
      · have hmem2 : h ∈ t := by
          rcases List.mem_cons.mp hmem with h1 | h1
          · exact absurd h1 hx
          · exact h1
        rcases hq : q x with ⟨v, e⟩
        simp only [fanoutNoData, hq]
        cases e with
        | none => exact ih hmem2
        | some e0 =>
          by_cases hb : e0 = benign
          · simp only [if_pos hb]
            exact ih hmem2
          · simp only [if_neg hb, List.mem_cons]
            exact Or.inr (ih hmem2)

/-- Claim C1: in the players and rules batch fan-out, a host answering with
the kind's no-data sentinel (`ErrNoPlayers`/`ErrNoRules`) is recorded in
the success map — with the roster/rules value Go returned alongside the
sentinel, the nil (empty) one — and is never added to the retry (failed)
set; a host failing with any other error is always added to the retry set
and never to the success map: for every batch host, the success-map entry
and retry-set membership are exactly `fanoutClassify` of the host's query
outcome. -/
theorem c1_nodata_success_other_retry
    (qP : String → GoSlice PlayerInfo × Option SteamErr)
    (qR : String → RulesMap × Option SteamErr)
    (serverlist : List String) (h : String) (hmem : h ∈ serverlist) :
    (getPlayersForServersFanout qP serverlist).1.lookup h =
      (fanoutClassify SteamErr.ErrNoPlayers (qP h)).1 ∧
    (h ∈ (getPlayersForServersFanout qP serverlist).2 ↔
      (fanoutClassify SteamErr.ErrNoPlayers (qP h)).2 = true) ∧
    (getRulesForServersFanout qR serverlist).1.lookup h =
      (fanoutClassify SteamErr.ErrNoRules (qR h)).1 ∧
    (h ∈ (getRulesForServersFanout qR serverlist).2 ↔
      (fanoutClassify SteamErr.ErrNoRules (qR h)).2 = true) :=
  ⟨fanoutNoData_lookup_eq SteamErr.ErrNoPlayers qP serverlist h hmem,
   fanoutNoData_failed_iff SteamErr.ErrNoPlayers qP serverlist h hmem,
   fanoutNoData_lookup_eq SteamErr.ErrNoRules qR serverlist h hmem,
   fanoutNoData_failed_iff SteamErr.ErrNoRules qR serverlist h hmem⟩

/-- Concrete players-query outcome used by the C1 witness: `ErrNoPlayers`
with the nil roster Go returns alongside it. -/
def qPWitness : String → GoSlice PlayerInfo × Option SteamErr :=
  fun _ => (none, some SteamErr.ErrNoPlayers)

/-- Concrete rules-query outcome used by the C1 witness: a non-sentinel
error. -/
def qRWitness : String → RulesMap × Option SteamErr :=
  fun _ => (none, some (SteamErr.other "read timeout"))

/-- Claim C1 witness: the theorem instantiated at a one-host batch where
the players query returns `ErrNoPlayers` and the rules query a
non-sentinel error. -/
theorem c1_nodata_success_other_retry_witness :
    ("10.0.0.1:27015" ∈ ["10.0.0.1:27015"]) ∧
    ((getPlayersForServersFanout qPWitness ["10.0.0.1:27015"]).1.lookup "10.0.0.1:27015" =
      (fanoutClassify SteamErr.ErrNoPlayers (qPWitness "10.0.0.1:27015")).1 ∧
    ("10.0.0.1:27015" ∈ (getPlayersForServersFanout qPWitness ["10.0.0.1:27015"]).2 ↔
      (fanoutClassify SteamErr.ErrNoPlayers (qPWitness "10.0.0.1:27015")).2 = true) ∧
    (getRulesForServersFanout qRWitness ["10.0.0.1:27015"]).1.lookup "10.0.0.1:27015" =
      (fanoutClassify SteamErr.ErrNoRules (qRWitness "10.0.0.1:27015")).1 ∧
    ("10.0.0.1:27015" ∈ (getRulesForServersFanout qRWitness ["10.0.0.1:27015"]).2 ↔
      (fanoutClassify SteamErr.ErrNoRules (qRWitness "10.0.0.1:27015")).2 = true)) :=
  ⟨by decide,
   c1_nodata_success_other_retry qPWitness qRWitness ["10.0.0.1:27015"]
     "10.0.0.1:27015" (by decide)⟩

end A2S

namespace A2S

/-! ## The success truth table (claims C4, C2) -/

/-- Under the pre-flight constraint that not all three kinds are ignored,
the sequential truth table of lines 251-274 collapses to "every non-skipped
kind present". -/
lemma computeSuccess_eq (a b c iok pok rok : Bool)
    (hnotall : ¬(a = true ∧ b = true ∧ c = true)) :
    computeSuccess ⟨a, b, c⟩ iok pok rok =
      ((a || iok) && ((b || pok) && (c || rok))) := by
  revert hnotall
  cases a <;> cases b <;> cases c <;> cases iok <;> cases pok <;> cases rok <;> decide

/-- `mkEntry` never yields the failed outcome: a host that reaches the
success branch is appended to `Servers` or panics, never to
`FailedServers`. -/
lemma mkEntry_ne_failedHost (filter : Filter) (info : Option ServerInfo)
    (players : GoSlice PlayerInfo) (rules : RulesMap)
    (countryOf : String → Option DbCountry) (host : String) :
    mkEntry filter info players rules countryOf host ≠ HostStep.failedHost := by
  unfold mkEntry
  cases hsp : splitHostPort host with
  | none => simp
  | some pr =>
    cases info with
    | none => simp
    | some v => simp

/-- Claim C4: for every filter skipping at most two kinds and every host,
`buildServerList`'s per-host step marks the host successful (not appended
to the failed list) iff every non-skipped kind is present in its per-kind
map, a skipped kind being vacuously satisfied — for all seven allowed flag
combinations. -/
theorem c4_success_iff_nonskipped_present (filter : Filter)
    (hnotall : ¬(filter.HasIgnoreInfo = true ∧ filter.HasIgnorePlayers = true ∧
      filter.HasIgnoreRules = true))
    (infomap : List (String × ServerInfo)) (rulemap : List (String × RulesMap))
    (playermap : List (String × GoSlice PlayerInfo))
    (countryOf : String → Option DbCountry) (host : String) :
    processHost filter infomap rulemap playermap countryOf host ≠ HostStep.failedHost ↔
      ((filter.HasIgnoreInfo = true ∨ (infomap.lookup host).isSome = true) ∧
       (filter.HasIgnorePlayers = true ∨ (playermap.lookup host).isSome = true) ∧
       (filter.HasIgnoreRules = true ∨ (rulemap.lookup host).isSome = true)) := by
  obtain ⟨a, b, c⟩ := filter
  unfold processHost
  rw [computeSuccess_eq a b c _ _ _ hnotall]
  by_cases hs : ((a || (infomap.lookup host).isSome) &&
      ((b || (playermap.lookup host).isSome) &&
       (c || (rulemap.lookup host).isSome))) = true
  · rw [if_pos hs]
    simp only [Bool.and_eq_true, Bool.or_eq_true] at hs
    constructor
    · intro _
      exact ⟨hs.1, hs.2.1, hs.2.2⟩
    · intro _
      exact mkEntry_ne_failedHost _ _ _ _ _ _
  · rw [if_neg hs]
    simp only [Bool.and_eq_true, Bool.or_eq_true] at hs
    constructor
    · intro hcontra
      exact absurd rfl hcontra
    · intro hpresent
      exact absurd hpresent hs

/-- A concrete `ServerInfo` record (no extra game port) used by witnesses. -/
def infoWitness : ServerInfo :=
  { Protocol := 17, Name := "srv", Map := "dm4", Folder := "baseq3",
    Game := "Clan Arena", ID := 0, Players := 2, MaxPlayers := 16, Bots := 0,
    ServerType := "Dedicated", Environment := "Linux", Visibility := 0,
    VAC := 1, Version := "1063", ExtraData := zeroExtraData }

/-- Claim C4 witness: a filter ignoring players and rules, and a host whose
info is present: the per-host step succeeds exactly as the truth table
says. -/
theorem c4_success_iff_nonskipped_present_witness :
    (¬((⟨false, true, true⟩ : Filter).HasIgnoreInfo = true ∧
       (⟨false, true, true⟩ : Filter).HasIgnorePlayers = true ∧
       (⟨false, true, true⟩ : Filter).HasIgnoreRules = true)) ∧
    (processHost ⟨false, true, true⟩ [("10.0.0.1:27015", infoWitness)] [] []
        (fun _ => none) "10.0.0.1:27015" ≠ HostStep.failedHost ↔
      (((⟨false, true, true⟩ : Filter).HasIgnoreInfo = true ∨
          (([("10.0.0.1:27015", infoWitness)] :
            List (String × ServerInfo)).lookup "10.0.0.1:27015").isSome = true) ∧
       ((⟨false, true, true⟩ : Filter).HasIgnorePlayers = true ∨
          (([] : List (String × GoSlice PlayerInfo)).lookup "10.0.0.1:27015").isSome = true) ∧
       ((⟨false, true, true⟩ : Filter).HasIgnoreRules = true ∨
          (([] : List (String × RulesMap)).lookup "10.0.0.1:27015").isSome = true))) :=
  ⟨by decide,
   c4_success_iff_nonskipped_present ⟨false, true, true⟩ (by decide)
     [("10.0.0.1:27015", infoWitness)] [] [] (fun _ => none) "10.0.0.1:27015"⟩

end A2S

namespace A2S

/-! ## Players nil-replacement (claim C9) and the ignore-info panic (claim C2) -/

/-- Whatever else `mkEntry` does, the entry it appends carries exactly the
players value computed by the nil-replacement of lines 245-248. -/
lemma mkEntry_players (filter : Filter) (info : Option ServerInfo)
    (players : GoSlice PlayerInfo) (rules : RulesMap)
    (countryOf : String → Option DbCountry) (host : String) (srv : server)
    (dbAdd : List String)
    (heq : mkEntry filter info players rules countryOf host =
      HostStep.okEntry srv dbAdd) :
    srv.Players = players := by
  unfold mkEntry at heq
  cases hsp : splitHostPort host with
  | none =>
    rw [hsp] at heq
    cases heq
    rfl
  | some pr =>
    rw [hsp] at heq
    cases info with
    | none => cases heq
    | some v =>
      obtain ⟨ip, portStr⟩ := pr
      cases heq
      rfl

/-- Claim C9: every host appended to the server list as a successful entry
has a non-nil `Players` field; when the players map has no entry (or a nil
entry) for the host, the field is the explicit empty player list. -/
theorem c9_players_never_nil (filter : Filter)
    (infomap : List (String × ServerInfo)) (rulemap : List (String × RulesMap))
    (playermap : List (String × GoSlice PlayerInfo))
    (countryOf : String → Option DbCountry) (host : String) (srv : server)
    (dbAdd : List String)
    (hok : processHost filter infomap rulemap playermap countryOf host =
      HostStep.okEntry srv dbAdd) :
    srv.Players ≠ (none : GoSlice PlayerInfo) ∧
    ((playermap.lookup host = some none ∨ playermap.lookup host = none) →
      srv.Players = some []) := by
  unfold processHost at hok
  by_cases hs : computeSuccess filter (infomap.lookup host).isSome
      (playermap.lookup host).isSome (rulemap.lookup host).isSome = true
  · rw [if_pos hs] at hok
    have hp := mkEntry_players _ _ _ _ _ _ _ _ hok
    constructor
    · rw [hp]
      simp
    · intro hcase
      rw [hp]
      rcases hcase with h1 | h1 <;> rw [h1] <;> rfl
  · rw [if_neg hs] at hok
    cases hok

/-- Claim C9 witness: a host present in all three maps but with a nil
players slice stored (the `ErrNoPlayers` outcome) yields an entry whose
`Players` is the explicit empty list. -/
theorem c9_players_never_nil_witness :
    (processHost ⟨false, false, false⟩ [("10.0.0.1:27015", infoWitness)]
        [("10.0.0.1:27015", some [])] [("10.0.0.1:27015", none)] (fun _ => none)
        "10.0.0.1:27015" =
      HostStep.okEntry
        { ID := 0, Host := "10.0.0.1:27015", IP := "10.0.0.1", Port := 27015,
          CountryInfo := none, Info := InfoField.si infoWitness,
          Players := some [], Rules := some [] } []) ∧
    (({ ID := 0, Host := "10.0.0.1:27015", IP := "10.0.0.1", Port := 27015,
        CountryInfo := none, Info := InfoField.si infoWitness,
        Players := some [], Rules := some [] } : server).Players ≠
      (none : GoSlice PlayerInfo) ∧
    ((([("10.0.0.1:27015", (none : GoSlice PlayerInfo))]).lookup "10.0.0.1:27015" =
        some none ∨
      (([("10.0.0.1:27015", (none : GoSlice PlayerInfo))]).lookup "10.0.0.1:27015" =
        none)) →
      ({ ID := 0, Host := "10.0.0.1:27015", IP := "10.0.0.1", Port := 27015,
         CountryInfo := none, Info := InfoField.si infoWitness,
         Players := some [], Rules := some [] } : server).Players = some [])) :=
  ⟨by decide,
   c9_players_never_nil ⟨false, false, false⟩ [("10.0.0.1:27015", infoWitness)]
     [("10.0.0.1:27015", some [])] [("10.0.0.1:27015", none)] (fun _ => none)
     "10.0.0.1:27015" _ [] (by decide)⟩

/-- Claim C2 (code bug): with `HasIgnoreInfo` set — the configuration in
which `retrieve` never fills `infomap` — a host whose players and rules are
present reaches the success branch with a nil `info` pointer, and line 291
(`info.ExtraData.Port`) dereferences it: `buildServerList` panics instead
of appending the host with the empty info placeholder. -/
theorem c2_ignore_info_panics :
    buildServerList ⟨true, false, false⟩ ["10.0.0.1:27960"] []
      [("10.0.0.1:27960", some [])] [("10.0.0.1:27960", some [])]
      (fun _ => none) (fun _ => 0) true true "t" 0 = BuildResult.panicked := by
  decide

end A2S

namespace A2S

/-! ## Partition of the input hosts (claim C5) -/

/-- When the host loop completes without panicking, the accumulated entry
list is the per-host entries of the successful hosts in order, the failed
list is exactly the unsuccessful hosts in order, and every input host
landed in exactly one of the two. -/
lemma buildLoop_eq_some (ph : String → HostStep) (l : List String)
    (srvs : List server) (failed : List String) (dbs : List String)
    (heq : buildLoop ph l = some (srvs, failed, dbs)) :
    srvs = l.filterMap (fun x => stepSrv (ph x)) ∧
    failed = l.filter (fun x => decide (ph x = HostStep.failedHost)) ∧
    srvs.length + failed.length = l.length := by
  induction l generalizing srvs failed dbs with
  | nil =>
    simp only [buildLoop, Option.some_inj, Prod.mk.injEq] at heq
    obtain ⟨rfl, rfl, rfl⟩ := heq
    simp
  | cons x t ih =>
    simp only [buildLoop] at heq
    cases hpx : ph x with
    | panicked =>
      rw [hpx] at heq
      cases heq
    | failedHost =>
      rw [hpx] at heq
      cases hbt : buildLoop ph t with
      | none =>
        rw [hbt] at heq
        cases heq
      | some trip =>
        obtain ⟨s2, f2, d2⟩ := trip
        obtain ⟨ih1, ih2, ih3⟩ := ih s2 f2 d2 hbt
        rw [hbt] at heq
        simp only [Option.some_inj, Prod.mk.injEq] at heq
        obtain ⟨he1, he2, he3⟩ := heq
        subst he1
        subst he2
        refine ⟨?_, ?_, ?_⟩
        · rw [List.filterMap_cons, hpx]
          simpa [stepSrv] using ih1
        · rw [List.filter_cons, hpx]
          simpa using ih2
        · simp only [List.length_cons]
          omega
    | okEntry srv dbAdd =>
      rw [hpx] at heq
      cases hbt : buildLoop ph t with
      | none =>
        rw [hbt] at heq
        cases heq
      | some trip =>
        obtain ⟨s2, f2, d2⟩ := trip
        obtain ⟨ih1, ih2, ih3⟩ := ih s2 f2 d2 hbt
        rw [hbt] at heq
        simp only [Option.some_inj, Prod.mk.injEq] at heq
        obtain ⟨he1, he2, he3⟩ := heq
        subst he1
        subst he2
        refine ⟨?_, ?_, ?_⟩
        · rw [List.filterMap_cons, hpx]
          simpa [stepSrv] using ih1
        · rw [List.filter_cons, hpx]
          simpa using ih2
        · simp only [List.length_cons]
          omega

/-- Claim C5: whenever `buildServerList` returns a list, every input host
appears in exactly one of the two output lists: `FailedServers` is exactly
the unsuccessful hosts in input order, `Servers` carries exactly one entry
per successful host in input order (with the id enrichment applied), and
the two lengths sum to the input length — no host is silently dropped. -/
theorem c5_partition (filter : Filter) (servers : List String)
    (infomap : List (String × ServerInfo)) (rulemap : List (String × RulesMap))
    (playermap : List (String × GoSlice PlayerInfo))
    (countryOf : String → Option DbCountry) (idOf : String → Int)
    (cdbOk sdbOk : Bool) (now : String) (ts : Int) (sl : serverList)
    (hok : buildServerList filter servers infomap rulemap playermap countryOf idOf
      cdbOk sdbOk now ts = BuildResult.ok sl) :
    sl.FailedServers = servers.filter
      (fun h => decide (processHost filter infomap rulemap playermap countryOf h =
        HostStep.failedHost)) ∧
    sl.Servers = (servers.filterMap
      (fun h => stepSrv (processHost filter infomap rulemap playermap countryOf h))).map
        (applyID idOf) ∧
    sl.Servers.length + sl.FailedServers.length = servers.length := by
  unfold buildServerList at hok
  by_cases h1 : (filter.HasIgnoreInfo && filter.HasIgnorePlayers &&
      filter.HasIgnoreRules) = true
  · rw [if_pos h1] at hok
    cases hok
  · rw [if_neg h1] at hok
    by_cases h2 : (!cdbOk) = true
    · rw [if_pos h2] at hok
      cases hok
    · rw [if_neg h2] at hok
      by_cases h3 : (!sdbOk) = true
      · rw [if_pos h3] at hok
        cases hok
      · rw [if_neg h3] at hok
        cases hbl : buildLoop (processHost filter infomap rulemap playermap countryOf)
            servers with
        | none =>
          rw [hbl] at hok
          cases hok
        | some trip =>
          obtain ⟨srvs, failed, dbs⟩ := trip
          obtain ⟨hb1, hb2, hb3⟩ := buildLoop_eq_some _ _ _ _ _ hbl
          rw [hbl] at hok
          cases hok
          refine ⟨?_, ?_, ?_⟩
          · simpa [setServerIDForList] using hb2
          · simp only [setServerIDForList]
            rw [hb1]
          · simpa [setServerIDForList] using hb3

/-- The single server entry of the C5 witness. -/
def srvWitnessC5 : server :=
  { ID := 0, Host := "1.2.3.4:27960", IP := "1.2.3.4", Port := 27960,
    CountryInfo := none, Info := InfoField.si infoWitness,
    Players := some [], Rules := some [] }

/-- The concrete assembled list of the C5 witness. -/
def slWitnessC5 : serverList :=
  { RetrievedAt := "t", RetrievedTimeStamp := 0, ServerCount := 1,
    Servers := [srvWitnessC5],
    FailedCount := 1, FailedServers := ["5.6.7.8:27015"] }

/-- Claim C5 witness: a two-host batch, one host fully answered and one
with nothing, partitions into one server entry and one failed address. -/
theorem c5_partition_witness :
    (buildServerList ⟨false, false, false⟩ ["1.2.3.4:27960", "5.6.7.8:27015"]
        [("1.2.3.4:27960", infoWitness)] [("1.2.3.4:27960", some [])]
        [("1.2.3.4:27960", some [])] (fun _ => none) (fun _ => 0) true true "t" 0 =
      BuildResult.ok slWitnessC5) ∧
    (slWitnessC5.FailedServers =
      (["1.2.3.4:27960", "5.6.7.8:27015"]).filter
        (fun h => decide (processHost ⟨false, false, false⟩
          [("1.2.3.4:27960", infoWitness)] [("1.2.3.4:27960", some [])]
          [("1.2.3.4:27960", some [])] (fun _ => none) h = HostStep.failedHost)) ∧
    slWitnessC5.Servers =
      ((["1.2.3.4:27960", "5.6.7.8:27015"]).filterMap
        (fun h => stepSrv (processHost ⟨false, false, false⟩
          [("1.2.3.4:27960", infoWitness)] [("1.2.3.4:27960", some [])]
          [("1.2.3.4:27960", some [])] (fun _ => none) h))).map (applyID (fun _ => 0)) ∧
    slWitnessC5.Servers.length + slWitnessC5.FailedServers.length =
      (["1.2.3.4:27960", "5.6.7.8:27015"]).length) :=
  ⟨by decide,
   c5_partition ⟨false, false, false⟩ ["1.2.3.4:27960", "5.6.7.8:27015"]
     [("1.2.3.4:27960", infoWitness)] [("1.2.3.4:27960", some [])]
     [("1.2.3.4:27960", some [])] (fun _ => none) (fun _ => 0) true true "t" 0
     slWitnessC5 (by decide)⟩

end A2S

namespace A2S

/-! ## Game-port address derivation (claim C6) -/

/-- `splitLast` finds nothing in a list free of the separator. -/
lemma splitLast_of_not_mem (c : Char) (cs : List Char) (h : c ∉ cs) :
    splitLast c cs = none := by
  induction cs with
  | nil => rfl
  | cons x xs ih =>
    have hx : ¬x = c := fun hc => h (hc ▸ List.mem_cons_self x xs)
    have hxs : c ∉ xs := fun hm => h (List.mem_cons_of_mem x hm)
    simp only [splitLast, ih hxs, if_neg hx]

/-- `splitLast` splits exactly at the unique separator occurrence. -/
lemma splitLast_append_of_not_mem (c : Char) (a b : List Char)
    (ha : c ∉ a) (hb : c ∉ b) : splitLast c (a ++ c :: b) = some (a, b) := by
  induction a with
  | nil => simp [splitLast, splitLast_of_not_mem c b hb]
  | cons x xs ih =>
    have hxs : c ∉ xs := fun hm => ha (List.mem_cons_of_mem x hm)
    simp [splitLast, ih hxs]

/-- On a canonical `ip:port` string (colon- and bracket-free ip, colon-free
port), the `net.SplitHostPort` model returns the two components. -/
lemma splitHostPort_canonical (ip portStr : String)
    (hipc : ':' ∉ ip.data) (hipb : '[' ∉ ip.data) (hipr : ']' ∉ ip.data)
    (hpc : ':' ∉ portStr.data) :
    splitHostPort (ip ++ ":" ++ portStr) = some (ip, portStr) := by
  obtain ⟨ipl⟩ := ip
  obtain ⟨pl⟩ := portStr
  have hdata : ((String.mk ipl) ++ ":" ++ (String.mk pl)).data = ipl ++ ':' :: pl := by
    simp [String.data_append]
  unfold splitHostPort
  rw [hdata, splitLast_append_of_not_mem ':' ipl pl hipc hpc]
  have h1 : ipl.contains ':' = false := by
    simpa using hipc
  have h2 : ipl.contains '[' = false := by
    simpa using hipb
  have h3 : ipl.contains ']' = false := by
    simpa using hipr
  simp only [h1, h2, h3, Bool.or_self, Bool.or_false, Bool.false_or,
    if_neg Bool.false_ne_true]

/-- Claim C6: for a successful host with decoded info, on the canonical
`ip:port` address form: when the info's extra-data game port is nonzero the
assembler derives the second host string `ip:game-port`, records it in
`dbhosts` for identity enrichment, and uses it as the entry's address;
otherwise the entry's address is the original query host string (when the
extra-data port is nonzero but merely equal to the query port, the derived
string coincides with the original address). -/
theorem c6_game_port_address (filter : Filter)
    (infomap : List (String × ServerInfo)) (rulemap : List (String × RulesMap))
    (playermap : List (String × GoSlice PlayerInfo))
    (countryOf : String → Option DbCountry)
    (ip portStr : String) (si : ServerInfo)
    (hipc : ':' ∉ ip.data) (hipb : '[' ∉ ip.data) (hipr : ']' ∉ ip.data)
    (hpc : ':' ∉ portStr.data)
    (hinfo : infomap.lookup (ip ++ ":" ++ portStr) = some si)
    (hsucc : computeSuccess filter (infomap.lookup (ip ++ ":" ++ portStr)).isSome
      (playermap.lookup (ip ++ ":" ++ portStr)).isSome
      (rulemap.lookup (ip ++ ":" ++ portStr)).isSome = true) :
    stepHost (processHost filter infomap rulemap playermap countryOf
        (ip ++ ":" ++ portStr)) =
      some (if si.ExtraData.Port ≠ 0 then ip ++ ":" ++ toString si.ExtraData.Port
            else ip ++ ":" ++ portStr) ∧
    stepDbAdd (processHost filter infomap rulemap playermap countryOf
        (ip ++ ":" ++ portStr)) =
      (if si.ExtraData.Port ≠ 0 then [ip ++ ":" ++ toString si.ExtraData.Port]
       else []) ∧
    (toString si.ExtraData.Port = portStr →
      ip ++ ":" ++ toString si.ExtraData.Port = ip ++ ":" ++ portStr) := by
  unfold processHost
  rw [hsucc]
  unfold mkEntry
  rw [splitHostPort_canonical ip portStr hipc hipb hipr hpc, hinfo]
  refine ⟨by simp [stepHost], by simp [stepDbAdd], fun h => by rw [h]⟩

/-- The C6 witness's `ServerInfo`: extra-data game port 27960, distinct
from the query port 27015. -/
def extraDataWitnessGP : ExtraData :=
  { Port := 27960, SteamID := 0, SourceTVPort := 0, SourceTVName := "",
    Keywords := "", GameID := 0 }

/-- The C6 witness's `ServerInfo`, continued. -/
def infoWitnessGP : ServerInfo :=
  { Protocol := 17, Name := "srv", Map := "dm4", Folder := "baseq3",
    Game := "Clan Arena", ID := 0, Players := 2, MaxPlayers := 16, Bots := 0,
    ServerType := "Dedicated", Environment := "Linux", Visibility := 0,
    VAC := 1, Version := "1063", ExtraData := extraDataWitnessGP }

/-- Claim C6 witness: the theorem instantiated at query endpoint
`1.2.3.4:27015` whose info exposes game port 27960. -/
theorem c6_game_port_address_witness :
    (':' ∉ ("1.2.3.4" : String).data) ∧
    ('[' ∉ ("1.2.3.4" : String).data) ∧
    (']' ∉ ("1.2.3.4" : String).data) ∧
    (':' ∉ ("27015" : String).data) ∧
    (([("1.2.3.4" ++ ":" ++ "27015", infoWitnessGP)] :
        List (String × ServerInfo)).lookup ("1.2.3.4" ++ ":" ++ "27015") =
      some infoWitnessGP) ∧
    (computeSuccess ⟨false, false, false⟩
      (([("1.2.3.4" ++ ":" ++ "27015", infoWitnessGP)] :
        List (String × ServerInfo)).lookup ("1.2.3.4" ++ ":" ++ "27015")).isSome
      (([("1.2.3.4" ++ ":" ++ "27015", (some [] : GoSlice PlayerInfo))]).lookup
        ("1.2.3.4" ++ ":" ++ "27015")).isSome
      (([("1.2.3.4" ++ ":" ++ "27015", (some [] : RulesMap))]).lookup
        ("1.2.3.4" ++ ":" ++ "27015")).isSome = true) ∧
    (stepHost (processHost ⟨false, false, false⟩
        [("1.2.3.4" ++ ":" ++ "27015", infoWitnessGP)]
        [("1.2.3.4" ++ ":" ++ "27015", (some [] : RulesMap))]
        [("1.2.3.4" ++ ":" ++ "27015", (some [] : GoSlice PlayerInfo))]
        (fun _ => none) ("1.2.3.4" ++ ":" ++ "27015")) =
      some (if infoWitnessGP.ExtraData.Port ≠ 0 then
              "1.2.3.4" ++ ":" ++ toString infoWitnessGP.ExtraData.Port
            else "1.2.3.4" ++ ":" ++ "27015") ∧
    stepDbAdd (processHost ⟨false, false, false⟩
        [("1.2.3.4" ++ ":" ++ "27015", infoWitnessGP)]
        [("1.2.3.4" ++ ":" ++ "27015", (some [] : RulesMap))]
        [("1.2.3.4" ++ ":" ++ "27015", (some [] : GoSlice PlayerInfo))]
        (fun _ => none) ("1.2.3.4" ++ ":" ++ "27015")) =
      (if infoWitnessGP.ExtraData.Port ≠ 0 then
        ["1.2.3.4" ++ ":" ++ toString infoWitnessGP.ExtraData.Port]
       else []) ∧
    (toString infoWitnessGP.ExtraData.Port = "27015" →
      "1.2.3.4" ++ ":" ++ toString infoWitnessGP.ExtraData.Port =
        "1.2.3.4" ++ ":" ++ "27015")) :=
  ⟨by decide, by decide, by decide, by decide, by decide, by decide,
   c6_game_port_address ⟨false, false, false⟩
     [("1.2.3.4" ++ ":" ++ "27015", infoWitnessGP)]
     [("1.2.3.4" ++ ":" ++ "27015", (some [] : RulesMap))]
     [("1.2.3.4" ++ ":" ++ "27015", (some [] : GoSlice PlayerInfo))]
     (fun _ => none) "1.2.3.4" "27015" infoWitnessGP
     (by decide) (by decide) (by decide) (by decide) (by decide) (by decide)⟩

/-! ## Count invariants (claim C10) -/

/-- Claim C10: every `serverList` returned by `buildServerList`, and every
default empty list returned by `GetDefaultServerList`, satisfies
`ServerCount` = length of `Servers` and `FailedCount` = length of
`FailedServers` at the moment it is returned. -/
theorem c10_counts (filter : Filter) (servers : List String)
    (infomap : List (String × ServerInfo)) (rulemap : List (String × RulesMap))
    (playermap : List (String × GoSlice PlayerInfo))
    (countryOf : String → Option DbCountry) (idOf : String → Int)
    (cdbOk sdbOk : Bool) (now : String) (ts : Int) (sl : serverList)
    (now2 : String) (ts2 : Int)
    (hok : buildServerList filter servers infomap rulemap playermap countryOf idOf
      cdbOk sdbOk now ts = BuildResult.ok sl) :
    sl.ServerCount = Int.ofNat sl.Servers.length ∧
    sl.FailedCount = Int.ofNat sl.FailedServers.length ∧
    (GetDefaultServerList now2 ts2).ServerCount =
      Int.ofNat (GetDefaultServerList now2 ts2).Servers.length ∧
    (GetDefaultServerList now2 ts2).FailedCount =
      Int.ofNat (GetDefaultServerList now2 ts2).FailedServers.length := by
  unfold buildServerList at hok
  by_cases h1 : (filter.HasIgnoreInfo && filter.HasIgnorePlayers &&
      filter.HasIgnoreRules) = true
  · rw [if_pos h1] at hok
    cases hok
  · rw [if_neg h1] at hok
    by_cases h2 : (!cdbOk) = true
    · rw [if_pos h2] at hok
      cases hok
    · rw [if_neg h2] at hok
      by_cases h3 : (!sdbOk) = true
      · rw [if_pos h3] at hok
        cases hok
      · rw [if_neg h3] at hok
        cases hbl : buildLoop (processHost filter infomap rulemap playermap countryOf)
            servers with
        | none =>
          rw [hbl] at hok
          cases hok
        | some trip =>
          obtain ⟨srvs, failed, dbs⟩ := trip
          rw [hbl] at hok
          cases hok
          refine ⟨?_, rfl, rfl, rfl⟩
          simp [setServerIDForList]

/-- The C10 witness's single server entry. -/
def srvWitnessC10 : server :=
  { ID := 0, Host := "1.2.3.4:27960", IP := "1.2.3.4", Port := 27960,
    CountryInfo := none, Info := InfoField.si infoWitness,
    Players := some [], Rules := some [] }

/-- The C10 witness's assembled list. -/
def slWitnessC10 : serverList :=
  { RetrievedAt := "t", RetrievedTimeStamp := 7, ServerCount := 1,
    Servers := [srvWitnessC10], FailedCount := 0, FailedServers := [] }

/-- Claim C10 witness: the count invariants at a concrete one-host build
and a concrete default list. -/
theorem c10_counts_witness :
    (buildServerList ⟨false, false, false⟩ ["1.2.3.4:27960"]
        [("1.2.3.4:27960", infoWitness)] [("1.2.3.4:27960", some [])]
        [("1.2.3.4:27960", some [])] (fun _ => none) (fun _ => 0) true true "t" 7 =
      BuildResult.ok slWitnessC10) ∧
    (slWitnessC10.ServerCount = Int.ofNat slWitnessC10.Servers.length ∧
    slWitnessC10.FailedCount = Int.ofNat slWitnessC10.FailedServers.length ∧
    (GetDefaultServerList "u" 9).ServerCount =
      Int.ofNat (GetDefaultServerList "u" 9).Servers.length ∧
    (GetDefaultServerList "u" 9).FailedCount =
      Int.ofNat (GetDefaultServerList "u" 9).FailedServers.length) :=
  ⟨by decide,
   c10_counts ⟨false, false, false⟩ ["1.2.3.4:27960"]
     [("1.2.3.4:27960", infoWitness)] [("1.2.3.4:27960", some [])]
     [("1.2.3.4:27960", some [])] (fun _ => none) (fun _ => 0) true true "t" 7
     slWitnessC10 "u" 9 (by decide)⟩

/-! ## Pre-flight rejection of the all-three-ignore filter (claim C3) -/

/-- Claim C3 counterexample: with all three ignore flags set, `retrieve`
still performs the master-server discovery query — network I/O — before
rejecting the batch: the emitted effect trace at the configuration-error
return is `[masterQuery]`, not the empty trace the claim's "before any
network I/O occurs" requires (`NewMasterQuery` runs at line 344, the flag
check only at line 349). -/
theorem c3_counterexample :
    retrieve ⟨true, true, true⟩ (Except.ok ["10.0.0.1:27960"])
      (fun _ => Except.error SteamErr.ErrNoInfo)
      (fun _ => (none, some SteamErr.ErrNoPlayers))
      (fun _ => (none, some SteamErr.ErrNoRules))
      (fun _ => []) (fun _ => []) (fun _ => [])
      (fun _ => none) (fun _ => 0) true true "t" 0 =
      ([NetEffect.masterQuery], Except.error RetrieveErr.configErr) ∧
    ([NetEffect.masterQuery] : List NetEffect) ≠ [] := by
  exact ⟨rfl, by decide⟩

/-- Claim C3 as amended: when the master query succeeds, a filter with all
three ignore flags set is rejected with the configuration error before any
game-server host is contacted — the whole run's effect trace is exactly the
master query and nothing else — though after that master-server network
exchange. -/
theorem c3_config_rejected_before_host_contact (filter : Filter)
    (hosts : List String)
    (qI : String → Except SteamErr ServerInfo)
    (qP : String → GoSlice PlayerInfo × Option SteamErr)
    (qR : String → RulesMap × Option SteamErr)
    (retryI : List String → List (String × ServerInfo))
    (retryP : List String → List (String × GoSlice PlayerInfo))
    (retryR : List String → List (String × RulesMap))
    (countryOf : String → Option DbCountry) (idOf : String → Int)
    (cdbOk sdbOk : Bool) (now : String) (ts : Int)
    (h1 : filter.HasIgnoreInfo = true) (h2 : filter.HasIgnorePlayers = true)
    (h3 : filter.HasIgnoreRules = true) :
    retrieve filter (Except.ok hosts) qI qP qR retryI retryP retryR countryOf idOf
      cdbOk sdbOk now ts =
      ([NetEffect.masterQuery], Except.error RetrieveErr.configErr) := by
  simp [retrieve, h1, h2, h3]

/-- Claim C3 witness: the amended rejection at a concrete all-three filter
and a successful two-host master query. -/
theorem c3_config_rejected_before_host_contact_witness :
    ((⟨true, true, true⟩ : Filter).HasIgnoreInfo = true) ∧
    ((⟨true, true, true⟩ : Filter).HasIgnorePlayers = true) ∧
    ((⟨true, true, true⟩ : Filter).HasIgnoreRules = true) ∧
    (retrieve ⟨true, true, true⟩ (Except.ok ["1.2.3.4:27960", "5.6.7.8:27015"])
      (fun _ => Except.error SteamErr.ErrNoInfo)
      (fun _ => (none, some SteamErr.ErrNoPlayers))
      (fun _ => (none, some SteamErr.ErrNoRules))
      (fun _ => []) (fun _ => []) (fun _ => [])
      (fun _ => none) (fun _ => 0) true true "t" 0 =
      ([NetEffect.masterQuery], Except.error RetrieveErr.configErr)) :=
  ⟨rfl, rfl, rfl,
   c3_config_rejected_before_host_contact ⟨true, true, true⟩
     ["1.2.3.4:27960", "5.6.7.8:27015"]
     (fun _ => Except.error SteamErr.ErrNoInfo)
     (fun _ => (none, some SteamErr.ErrNoPlayers))
     (fun _ => (none, some SteamErr.ErrNoRules))
     (fun _ => []) (fun _ => []) (fun _ => [])
     (fun _ => none) (fun _ => 0) true true "t" 0 rfl rfl rfl⟩

/-! ## The fixture packet decode (claim C7) and snapshot field order (claim C8) -/

/-- Claim C7: decoding the literal 144-byte fixture packet (marker
`FF FF FF FF`, type `0x49`) succeeds, and the decoded record's name is
"ql.syncore.org - US CENTRAL #1", environment "Linux", folder "baseq3",
and player count 2. -/
theorem c7_fixture_decodes :
    (parseServerInfo infoFixturePacket).isSome = true ∧
    (parseServerInfo infoFixturePacket).map ServerInfo.Name =
      some "ql.syncore.org - US CENTRAL #1" ∧
    (parseServerInfo infoFixturePacket).map ServerInfo.Environment = some "Linux" ∧
    (parseServerInfo infoFixturePacket).map ServerInfo.Folder = some "baseq3" ∧
    (parseServerInfo infoFixturePacket).map ServerInfo.Players = some 2 := by
  exact ⟨rfl, rfl, rfl, rfl, rfl⟩

/-- The snapshot that the C8 counterexample produces (an empty batch under
the default filter). -/
def slWitnessC8 : serverList :=
  { RetrievedAt := "t", RetrievedTimeStamp := 0, ServerCount := 0,
    Servers := [], FailedCount := 0, FailedServers := [] }

/-- Claim C8 counterexample: a snapshot actually produced by
`buildServerList` serializes with `failedCount` after `servers` — the field
order of the `serverList` struct — not in the claimed order (timestamps,
then both counts, then the server list, then the failed list). -/
theorem c8_counterexample :
    (buildServerList ⟨false, false, false⟩ [] [] [] [] (fun _ => none)
      (fun _ => 0) true true "t" 0 = BuildResult.ok slWitnessC8) ∧
    (marshalServerList (fun _ => Json.null) (fun _ => Json.null)
      (fun _ => Json.null) slWitnessC8).map Prod.fst ≠ specSnapshotFieldOrder := by
  exact ⟨rfl, by decide⟩

/-- Claim C8 as amended: every serialized snapshot has the stable top-level
field order retrievalDate, timestamp, serverCount, servers, failedCount,
failedServers — each count directly precedes its list, rather than both
counts preceding both lists. -/
theorem c8_field_order (encInfo : ServerInfo → Json) (encPlayer : PlayerInfo → Json)
    (encCountry : DbCountry → Json) (sl : serverList) :
    (marshalServerList encInfo encPlayer encCountry sl).map Prod.fst =
      ["retrievalDate", "timestamp", "serverCount", "servers", "failedCount",
       "failedServers"] := rfl

end A2S
